import Mathlib

/-!
Verification of the recipe-classification core of `src/app.py`
(recipechecker): closure-axiom builder, fallback classifier and
profile-compatibility evaluator, shallowly embedded in Lean.

Ingredients carry exactly one leaf category (the categories enumerated in
`get_ingredient_category` and the ingredient-creation form of `app.py`).
A recipe's owlready2 individual is modelled by its name, its
`aPourIngredient` list and its `is_a` fact list.
-/

/-- Leaf ingredient categories of the type hierarchy, as enumerated in
`get_ingredient_category` and the category selectbox of `app.py`. -/
inductive Categorie where
  | viande
  | produitMarin
  | produitLaitier
  | oeuf
  | cerealeAvecGluten
  | cereale
  | fruit
  | legumineuse
  | oleagineux
  | autre
deriving DecidableEq, Repr

/-- Modelled from the spec: membership in the derived union `ProduitAnimal`
(AnimalProduct = Meat ∪ Seafood ∪ Dairy ∪ Egg). The class hierarchy itself
lives in the OWL ontology file `ontologierecette.owl`, which is not part of
`src/`; the spec's §2 "Type Hierarchy" defines the union. -/
def isProduitAnimal (c : Categorie) : Bool :=
  c == .viande || c == .produitMarin || c == .produitLaitier || c == .oeuf

/-- An ingredient individual: a name and its (single) leaf category. -/
structure Ingredient where
  name : String
  categorie : Categorie
deriving DecidableEq, Repr

/-- Kinds of owlready2 restriction values relevant here: the closure builder
creates `aPourIngredient only OneOf(ingredients)`; other restriction shapes
over the same property may pre-exist and are distinguished only by their
property in `remove_existing_aPourIngredient_closure`. -/
inductive RestrictionValue where
  | onlyOneOf (fillers : List Ingredient)
  | otherValue (tag : String)
deriving DecidableEq, Repr

/-- A fact in a recipe individual's `is_a` list: either a restriction
(`Restriction` in owlready2, with its `property` name) or a named class
membership. -/
inductive OntoFact where
  | restriction (prop : String) (value : RestrictionValue)
  | namedClass (cls : String)
deriving DecidableEq, Repr

/-- A recipe individual: name, its `aPourIngredient` fillers, and its `is_a`
fact list (mutated in place by the closure builder in the Python source;
modelled here by explicit state passing). -/
structure Recette where
  name : String
  aPourIngredient : List Ingredient
  is_a : List OntoFact
deriving DecidableEq, Repr

/-- The test of `remove_existing_aPourIngredient_closure`:
`isinstance(ax, Restriction) and ax.property == onto.aPourIngredient`. -/
def isAPourIngredientRestriction (f : OntoFact) : Bool :=
  match f with
  | .restriction prop _ => prop == "aPourIngredient"
  | .namedClass _ => false

/-- Embeds `remove_existing_aPourIngredient_closure(recette, onto)`: removes
from `is_a` every restriction whose property is `aPourIngredient`,
whatever its value and however many there are. -/
def remove_existing_aPourIngredient_closure (r : Recette) : Recette :=
  { r with is_a := r.is_a.filter (fun f => !isAPourIngredientRestriction f) }

/-- The closure fact asserted for an ingredient list:
`onto.aPourIngredient.only(OneOf(ingredients))`. -/
def closureFact (ingredients : List Ingredient) : OntoFact :=
  .restriction "aPourIngredient" (.onlyOneOf ingredients)

/-- Embeds `apply_closure_to_recipe(recette, onto)`: reads the current
ingredient list, removes the old closures, and (when the list is non-empty)
appends a fresh `aPourIngredient only OneOf(...)` restriction to `is_a`.
Returns the updated recipe and the function's boolean result. -/
def apply_closure_to_recipe (r : Recette) : Recette × Bool :=
  let ingredients := r.aPourIngredient
  let r1 := remove_existing_aPourIngredient_closure r
  if ingredients.isEmpty then
    (r1, false)
  else
    ({ r1 with is_a := r1.is_a ++ [closureFact ingredients] }, true)

/-- Embeds `apply_closure_to_all_recipes(onto)`: applies the closure to every
recipe in turn, counting the successful ones. -/
def apply_closure_to_all_recipes (rs : List Recette) : List Recette × Nat :=
  match rs with
  | [] => ([], 0)
  | r :: rest =>
    let p := apply_closure_to_recipe r
    let q := apply_closure_to_all_recipes rest
    (p.1 :: q.1, (if p.2 then 1 else 0) + q.2)

/-- The closure facts currently attached to a recipe (the facts
`remove_existing_aPourIngredient_closure` would remove). -/
def closureFacts (r : Recette) : List OntoFact :=
  r.is_a.filter isAPourIngredientRestriction

/-- The reasoner-derived class memberships of a recipe individual, read by
`get_inferred_types` through `isinstance(recette, onto.RecetteCarnee)` etc.
These are state produced by the external reasoner (a black box here). -/
structure ReasonerLabels where
  recetteCarnee : Bool
  recetteVegane : Bool
  recetteVegetarienne : Bool
  recetteSansGluten : Bool
deriving DecidableEq, Repr

/-- Reasoner state in which no type was inferred for the recipe. -/
def noReasonerLabels : ReasonerLabels := ⟨false, false, false, false⟩

/-- Embeds `get_inferred_types(recette, onto)`: first collects the
reasoner-inferred types; only when that list is empty does it run the manual
fallback inference over the ingredient list. -/
def get_inferred_types (labels : ReasonerLabels) (r : Recette) : List String :=
  let types :=
    (if labels.recetteCarnee then ["🥩 Carnée"] else []) ++
    (if labels.recetteVegane then ["🌱 Végane"] else []) ++
    (if labels.recetteVegetarienne then ["🥗 Végétarienne"] else []) ++
    (if labels.recetteSansGluten then ["🌾 Sans Gluten"] else [])
  if types.isEmpty then
    let ingredients := r.aPourIngredient
    let has_animal := ingredients.any (fun ing => isProduitAnimal ing.categorie)
    let has_meat_or_fish := ingredients.any (fun ing =>
      ing.categorie == .viande || ing.categorie == .produitMarin)
    let has_meat := ingredients.any (fun ing => ing.categorie == .viande)
    let has_gluten := ingredients.any (fun ing => ing.categorie == .cerealeAvecGluten)
    (if has_meat then ["🥩 CarnéeL"] else []) ++
    (if !has_animal then ["🌱 VéganeL"] else []) ++
    (if !has_meat_or_fish then ["🥗 VégétarienneL"] else []) ++
    (if !has_gluten then ["🌾 Sans GlutenL"] else [])
  else
    types

/-- Does `pat` occur as a prefix of `s`? (Helper for Python's substring
containment operator `pat in s`.) -/
def charsStartWith : List Char → List Char → Bool
  | [], _ => true
  | _ :: _, [] => false
  | p :: ps, c :: cs => p == c && charsStartWith ps cs

/-- Does `pat` occur as a contiguous run inside `s`? (Python's `pat in s`.) -/
def charsContain (pat : List Char) : List Char → Bool
  | [] => charsStartWith pat []
  | c :: cs => charsStartWith pat (c :: cs) || charsContain pat cs

/-- Python's substring test `pat in s` on strings. -/
def strContains (s pat : String) : Bool :=
  charsContain pat.toList s.toList

/-- Python's `s.lower()`: lowercases every character (character-by-character,
as `String.toLower` does). -/
def strLower (s : String) : String :=
  ⟨s.data.map Char.toLower⟩

/-- Embeds `check_compatibility(recette, profile_name, onto)`: the
profile-name dispatch and the per-profile ingredient predicates, with the
permissive `return True` default. -/
def check_compatibility (r : Recette) (profile_name : String) : Bool :=
  let ingredients := r.aPourIngredient
  if profile_name == "Vegetarien" then
    !ingredients.any (fun ing =>
      ing.categorie == .viande || ing.categorie == .produitMarin)
  else if profile_name == "Vegane" then
    !ingredients.any (fun ing => isProduitAnimal ing.categorie)
  else if profile_name == "SansGluten" || profile_name == "AllergieGluten" then
    !ingredients.any (fun ing => ing.categorie == .cerealeAvecGluten)
  else if profile_name == "AllergieLactose" then
    !ingredients.any (fun ing => ing.categorie == .produitLaitier)
  else if profile_name == "AllergieArachide" then
    !ingredients.any (fun ing =>
      ing.categorie == .oleagineux && strContains (strLower ing.name) "arachide")
  else
    true

/-- The peanut-allergy predicate as the spec words it (§4.4): compatible iff
no Nut-category ingredient's name contains the substring "peanut",
case-insensitively. Stated from the spec to compare with the source's
`check_compatibility`, which matches the substring "arachide" instead. -/
def specAllergyPeanut (r : Recette) : Bool :=
  !r.aPourIngredient.any (fun ing =>
    ing.categorie == .oleagineux && strContains (strLower ing.name) "peanut")

example : isAPourIngredientRestriction (closureFact [⟨"Poulet", .viande⟩]) = true := by
  decide

example :
    get_inferred_types noReasonerLabels
      ⟨"SaladeLentilles", [⟨"Lentilles", .legumineuse⟩, ⟨"Tomate", .fruit⟩], []⟩ =
      ["🌱 VéganeL", "🥗 VégétarienneL", "🌾 Sans GlutenL"] := by
  decide

example :
    check_compatibility ⟨"R", [⟨"Arachide", .oleagineux⟩], []⟩ "AllergieArachide" = false := by
  decide

example :
    specAllergyPeanut ⟨"R", [⟨"Arachide", .oleagineux⟩], []⟩ = true := by
  decide

example :
    get_inferred_types noReasonerLabels
      ⟨"PouletRoti", [⟨"Poulet", .viande⟩, ⟨"Tomate", .fruit⟩], []⟩ =
      ["🥩 CarnéeL", "🌾 Sans GlutenL"] := by
  decide

/-- Filtering a list twice with the same predicate yields the first filter. -/
theorem filter_closure_of_removed (l : List OntoFact) :
    (l.filter fun f => !isAPourIngredientRestriction f).filter
        isAPourIngredientRestriction = [] := by
  induction l with
  | nil => rfl
  | cons f fs ih =>
    cases hf : isAPourIngredientRestriction f <;>
      simp [List.filter_cons, hf, ih]

/-- Removing the closure facts is idempotent on the fact list. -/
theorem filter_not_closure_idem (l : List OntoFact) :
    ((l.filter fun f => !isAPourIngredientRestriction f).filter
        fun f => !isAPourIngredientRestriction f) =
      l.filter fun f => !isAPourIngredientRestriction f := by
  induction l with
  | nil => rfl
  | cons f fs ih =>
    cases hf : isAPourIngredientRestriction f <;>
      simp [List.filter_cons, hf, ih]

/-- Explicit form of `apply_closure_to_recipe` on a non-empty ingredient list. -/
theorem apply_closure_nonempty (r : Recette)
    (h : r.aPourIngredient.isEmpty = false) :
    apply_closure_to_recipe r =
      ({ r with is_a := (r.is_a.filter fun f => !isAPourIngredientRestriction f) ++
          [closureFact r.aPourIngredient] }, true) := by
  simp [apply_closure_to_recipe, remove_existing_aPourIngredient_closure, h]

/-- C2: closure application is idempotent — applying `apply_closure_to_recipe`
twice to a recipe with an unchanged non-empty ingredient list gives the same
state as applying it once, and after application the recipe carries exactly
one closure fact, enumerating the current ingredient list. -/
theorem c2_closure_idempotent (r : Recette) (h : r.aPourIngredient ≠ []) :
    (apply_closure_to_recipe (apply_closure_to_recipe r).1).1 =
      (apply_closure_to_recipe r).1 ∧
    closureFacts (apply_closure_to_recipe r).1 = [closureFact r.aPourIngredient] := by
  have h' : r.aPourIngredient.isEmpty = false := by
    cases hl : r.aPourIngredient with
    | nil => exact absurd hl h
    | cons a l => rfl
  refine ⟨?_, ?_⟩
  · rw [apply_closure_nonempty r h']
    rw [apply_closure_nonempty _ (by simpa using h')]
    simp [List.filter_append, filter_not_closure_idem, closureFact,
      isAPourIngredientRestriction, beq_self_eq_true]
  · rw [apply_closure_nonempty r h']
    simp [closureFacts, List.filter_append, filter_closure_of_removed, closureFact,
      isAPourIngredientRestriction, beq_self_eq_true]

/-- C2 witness: idempotence and single-closure content at the concrete recipe
`PouletRoti` with ingredients `[Poulet, Tomate]` and one prior closure fact. -/
theorem c2_closure_idempotent_witness :
    (Recette.mk "PouletRoti" [⟨"Poulet", .viande⟩, ⟨"Tomate", .fruit⟩]
        [closureFact [⟨"Poulet", .viande⟩]]).aPourIngredient ≠ [] ∧
    ((apply_closure_to_recipe (apply_closure_to_recipe
        (Recette.mk "PouletRoti" [⟨"Poulet", .viande⟩, ⟨"Tomate", .fruit⟩]
          [closureFact [⟨"Poulet", .viande⟩]])).1).1 =
      (apply_closure_to_recipe
        (Recette.mk "PouletRoti" [⟨"Poulet", .viande⟩, ⟨"Tomate", .fruit⟩]
          [closureFact [⟨"Poulet", .viande⟩]])).1 ∧
     closureFacts (apply_closure_to_recipe
        (Recette.mk "PouletRoti" [⟨"Poulet", .viande⟩, ⟨"Tomate", .fruit⟩]
          [closureFact [⟨"Poulet", .viande⟩]])).1 =
      [closureFact [⟨"Poulet", .viande⟩, ⟨"Tomate", .fruit⟩]]) :=
  ⟨by decide, c2_closure_idempotent _ (by decide)⟩

/-- C3: reapplying the closure after any edit fully replaces the old closure —
whatever closure facts existed before (however many), afterwards the
`aPourIngredient` restrictions are exactly one fact enumerating the recipe's
current ingredient list, the non-closure facts are untouched, and the
ingredient list itself is unchanged. -/
theorem c3_closure_full_replacement (r : Recette) (h : r.aPourIngredient ≠ []) :
    closureFacts (apply_closure_to_recipe r).1 = [closureFact r.aPourIngredient] ∧
    ((apply_closure_to_recipe r).1.is_a.filter fun f => !isAPourIngredientRestriction f) =
      (r.is_a.filter fun f => !isAPourIngredientRestriction f) ∧
    (apply_closure_to_recipe r).1.aPourIngredient = r.aPourIngredient := by
  have h' : r.aPourIngredient.isEmpty = false := by
    cases hl : r.aPourIngredient with
    | nil => exact absurd hl h
    | cons a l => rfl
  rw [apply_closure_nonempty r h']
  refine ⟨?_, ?_, rfl⟩
  · simp [closureFacts, List.filter_append, filter_closure_of_removed, closureFact,
      isAPourIngredientRestriction, beq_self_eq_true]
  · simp [List.filter_append, filter_not_closure_idem, closureFact,
      isAPourIngredientRestriction, beq_self_eq_true]

/-- C3 witness: full replacement at a concrete recipe carrying two stale
closure facts and one unrelated class fact. -/
theorem c3_closure_full_replacement_witness :
    (Recette.mk "GateauChocolat" [⟨"Farine", .cerealeAvecGluten⟩, ⟨"Lait", .produitLaitier⟩]
        [closureFact [⟨"Farine", .cerealeAvecGluten⟩], closureFact [],
         OntoFact.namedClass "Recette"]).aPourIngredient ≠ [] ∧
    (closureFacts (apply_closure_to_recipe
        (Recette.mk "GateauChocolat" [⟨"Farine", .cerealeAvecGluten⟩, ⟨"Lait", .produitLaitier⟩]
          [closureFact [⟨"Farine", .cerealeAvecGluten⟩], closureFact [],
           OntoFact.namedClass "Recette"])).1 =
      [closureFact [⟨"Farine", .cerealeAvecGluten⟩, ⟨"Lait", .produitLaitier⟩]] ∧
     ((apply_closure_to_recipe
        (Recette.mk "GateauChocolat" [⟨"Farine", .cerealeAvecGluten⟩, ⟨"Lait", .produitLaitier⟩]
          [closureFact [⟨"Farine", .cerealeAvecGluten⟩], closureFact [],
           OntoFact.namedClass "Recette"])).1.is_a.filter
          fun f => !isAPourIngredientRestriction f) =
      ((Recette.mk "GateauChocolat" [⟨"Farine", .cerealeAvecGluten⟩, ⟨"Lait", .produitLaitier⟩]
          [closureFact [⟨"Farine", .cerealeAvecGluten⟩], closureFact [],
           OntoFact.namedClass "Recette"]).is_a.filter
          fun f => !isAPourIngredientRestriction f) ∧
     (apply_closure_to_recipe
        (Recette.mk "GateauChocolat" [⟨"Farine", .cerealeAvecGluten⟩, ⟨"Lait", .produitLaitier⟩]
          [closureFact [⟨"Farine", .cerealeAvecGluten⟩], closureFact [],
           OntoFact.namedClass "Recette"])).1.aPourIngredient =
      (Recette.mk "GateauChocolat" [⟨"Farine", .cerealeAvecGluten⟩, ⟨"Lait", .produitLaitier⟩]
          [closureFact [⟨"Farine", .cerealeAvecGluten⟩], closureFact [],
           OntoFact.namedClass "Recette"]).aPourIngredient) :=
  ⟨by decide, c3_closure_full_replacement _ (by decide)⟩

/-- C4: `apply_closure_to_recipe` returns `true` exactly when the ingredient
list is non-empty — the case in which it asserts the (single) new closure
fact — and on an empty ingredient list it returns `false` and leaves no
closure fact asserted. -/
theorem c4_apply_closure_result (r : Recette) :
    ((apply_closure_to_recipe r).2 = !r.aPourIngredient.isEmpty) ∧
    closureFacts (apply_closure_to_recipe r).1 =
      (if r.aPourIngredient.isEmpty then [] else [closureFact r.aPourIngredient]) := by
  cases he : r.aPourIngredient.isEmpty <;>
    simp [apply_closure_to_recipe, remove_existing_aPourIngredient_closure, closureFacts, he,
      List.filter_append, filter_closure_of_removed, closureFact,
      isAPourIngredientRestriction, beq_self_eq_true]

/-- C9: the batch operation processes every recipe (its output states are the
per-recipe closure applications, in order, none skipped) and returns exactly
the number of recipes whose closure application succeeded, which is the
number of recipes with a non-empty ingredient list. -/
theorem c9_apply_all_processes_every_recipe (rs : List Recette) :
    ((apply_closure_to_all_recipes rs).2 =
      rs.countP (fun r => (apply_closure_to_recipe r).2)) ∧
    ((apply_closure_to_all_recipes rs).2 =
      rs.countP (fun r => !r.aPourIngredient.isEmpty)) ∧
    (apply_closure_to_all_recipes rs).1 =
      rs.map (fun r => (apply_closure_to_recipe r).1) := by
  induction rs with
  | nil => simp [apply_closure_to_all_recipes]
  | cons r rest ih =>
    have hsucc : (apply_closure_to_recipe r).2 = !r.aPourIngredient.isEmpty := by
      cases he : r.aPourIngredient.isEmpty <;>
        simp [apply_closure_to_recipe, he]
    refine ⟨?_, ?_, ?_⟩
    · simp [apply_closure_to_all_recipes, List.countP_cons, ih.1, Nat.add_comm]
    · simp [apply_closure_to_all_recipes, List.countP_cons, ih.2.1, hsucc, Nat.add_comm]
    · simp [apply_closure_to_all_recipes, ih.2.2]

/-- With no reasoner-derived labels, `get_inferred_types` is exactly the
manual fallback over the ingredient list. -/
theorem get_inferred_types_no_labels (r : Recette) :
    get_inferred_types noReasonerLabels r =
      (if r.aPourIngredient.any (fun ing => ing.categorie == .viande)
        then ["🥩 CarnéeL"] else []) ++
      (if !r.aPourIngredient.any (fun ing => isProduitAnimal ing.categorie)
        then ["🌱 VéganeL"] else []) ++
      (if !r.aPourIngredient.any (fun ing =>
            ing.categorie == .viande || ing.categorie == .produitMarin)
        then ["🥗 VégétarienneL"] else []) ++
      (if !r.aPourIngredient.any (fun ing => ing.categorie == .cerealeAvecGluten)
        then ["🌾 Sans GlutenL"] else []) := rfl

/-- Membership in a conditional singleton label block. -/
theorem mem_ite_singleton {b : Bool} {s x : String} :
    x ∈ (if b then [s] else ([] : List String)) ↔ b = true ∧ x = s := by
  cases b <;> simp

/-- C1: with no reasoner-derived labels, the fallback classifier yields
exactly the four labels of `get_inferred_types`: Carnée iff some ingredient
is a Viande; Végane iff no ingredient is a ProduitAnimal; Végétarienne iff no
ingredient is a Viande or ProduitMarin; Sans Gluten iff no ingredient is a
CerealeAvecGluten. -/
theorem c1_fallback_labels (r : Recette) :
    ("🥩 CarnéeL" ∈ get_inferred_types noReasonerLabels r ↔
      ∃ ing ∈ r.aPourIngredient, ing.categorie = Categorie.viande) ∧
    ("🌱 VéganeL" ∈ get_inferred_types noReasonerLabels r ↔
      ∀ ing ∈ r.aPourIngredient, isProduitAnimal ing.categorie = false) ∧
    ("🥗 VégétarienneL" ∈ get_inferred_types noReasonerLabels r ↔
      ∀ ing ∈ r.aPourIngredient,
        ing.categorie ≠ Categorie.viande ∧ ing.categorie ≠ Categorie.produitMarin) ∧
    ("🌾 Sans GlutenL" ∈ get_inferred_types noReasonerLabels r ↔
      ∀ ing ∈ r.aPourIngredient, ing.categorie ≠ Categorie.cerealeAvecGluten) := by
  rw [get_inferred_types_no_labels]
  simp [List.mem_append, mem_ite_singleton, List.any_eq_true, List.any_eq_false,
    Bool.not_eq_true', beq_iff_eq, beq_eq_false_iff_ne, Bool.or_eq_false_iff]

/-- C8: if the fallback classifier marks a recipe Végane it also marks it
Végétarienne — Viande and ProduitMarin are contained in the ProduitAnimal
union, so an ingredient list free of animal products is also free of meat
and seafood. -/
theorem c8_vegan_implies_vegetarian (r : Recette)
    (h : "🌱 VéganeL" ∈ get_inferred_types noReasonerLabels r) :
    "🥗 VégétarienneL" ∈ get_inferred_types noReasonerLabels r := by
  rw [get_inferred_types_no_labels] at h ⊢
  simp only [List.mem_append, mem_ite_singleton] at h ⊢
  simp only [List.any_eq_true, List.any_eq_false, Bool.not_eq_true', beq_iff_eq,
    beq_eq_false_iff_ne, Bool.or_eq_false_iff] at h ⊢
  simp at h ⊢
  intro ing hmem
  have hanim := h ing hmem
  simp only [isProduitAnimal, Bool.or_eq_false_iff, beq_eq_false_iff_ne] at hanim
  exact ⟨hanim.1.1.1, hanim.1.1.2⟩

/-- C8 witness: the concrete recipe `SaladeLentilles` is marked Végane by the
fallback, hence also Végétarienne. -/
theorem c8_vegan_implies_vegetarian_witness :
    "🌱 VéganeL" ∈ get_inferred_types noReasonerLabels
      (Recette.mk "SaladeLentilles"
        [⟨"Lentilles", .legumineuse⟩, ⟨"Tomate", .fruit⟩, ⟨"Pomme", .fruit⟩] []) ∧
    "🥗 VégétarienneL" ∈ get_inferred_types noReasonerLabels
      (Recette.mk "SaladeLentilles"
        [⟨"Lentilles", .legumineuse⟩, ⟨"Tomate", .fruit⟩, ⟨"Pomme", .fruit⟩] []) :=
  ⟨by decide, c8_vegan_implies_vegetarian _ (by decide)⟩

/-- C10: the fallback classifier can yield the empty label set — a recipe of
one ProduitMarin and one CerealeAvecGluten ingredient (and no Viande)
receives none of the four fallback labels. -/
theorem c10_fallback_empty_label_set :
    get_inferred_types noReasonerLabels
      (Recette.mk "SaumonGrille"
        [⟨"Saumon", .produitMarin⟩, ⟨"Farine", .cerealeAvecGluten⟩] []) = [] := by
  decide

/-- Profile dispatch: the `Vegetarien` branch of `check_compatibility`. -/
theorem check_compatibility_vegetarien (r : Recette) :
    check_compatibility r "Vegetarien" =
      !r.aPourIngredient.any (fun ing =>
        ing.categorie == .viande || ing.categorie == .produitMarin) := rfl

/-- Profile dispatch: the `Vegane` branch of `check_compatibility`. -/
theorem check_compatibility_vegane (r : Recette) :
    check_compatibility r "Vegane" =
      !r.aPourIngredient.any (fun ing => isProduitAnimal ing.categorie) := rfl

/-- Profile dispatch: the `SansGluten` branch of `check_compatibility`. -/
theorem check_compatibility_sansgluten (r : Recette) :
    check_compatibility r "SansGluten" =
      !r.aPourIngredient.any (fun ing => ing.categorie == .cerealeAvecGluten) := rfl

/-- Profile dispatch: the `AllergieGluten` branch of `check_compatibility`. -/
theorem check_compatibility_allergiegluten (r : Recette) :
    check_compatibility r "AllergieGluten" =
      !r.aPourIngredient.any (fun ing => ing.categorie == .cerealeAvecGluten) := rfl

/-- Profile dispatch: the `AllergieLactose` branch of `check_compatibility`. -/
theorem check_compatibility_allergielactose (r : Recette) :
    check_compatibility r "AllergieLactose" =
      !r.aPourIngredient.any (fun ing => ing.categorie == .produitLaitier) := rfl

/-- Profile dispatch: the `AllergieArachide` branch of `check_compatibility`. -/
theorem check_compatibility_allergiearachide (r : Recette) :
    check_compatibility r "AllergieArachide" =
      !r.aPourIngredient.any (fun ing =>
        ing.categorie == .oleagineux && strContains (strLower ing.name) "arachide") := rfl

/-- C5: the compatibility evaluator's semantics per profile — Vegetarien iff
no Viande or ProduitMarin ingredient; Vegane iff no ProduitAnimal ingredient;
SansGluten and AllergieGluten identical, iff no CerealeAvecGluten ingredient;
AllergieLactose iff no ProduitLaitier ingredient; and the result depends only
on the ingredient list (not on the recipe's name or on any facts in `is_a`,
in particular not on reasoner-derived class memberships). -/
theorem c5_check_compatibility_semantics (r : Recette) :
    (check_compatibility r "Vegetarien" = true ↔
      ∀ ing ∈ r.aPourIngredient,
        ing.categorie ≠ Categorie.viande ∧ ing.categorie ≠ Categorie.produitMarin) ∧
    (check_compatibility r "Vegane" = true ↔
      ∀ ing ∈ r.aPourIngredient, isProduitAnimal ing.categorie = false) ∧
    (check_compatibility r "SansGluten" = true ↔
      ∀ ing ∈ r.aPourIngredient, ing.categorie ≠ Categorie.cerealeAvecGluten) ∧
    (check_compatibility r "AllergieGluten" = check_compatibility r "SansGluten") ∧
    (check_compatibility r "AllergieLactose" = true ↔
      ∀ ing ∈ r.aPourIngredient, ing.categorie ≠ Categorie.produitLaitier) ∧
    (∀ (nm : String) (fs : List OntoFact) (p : String),
      check_compatibility r p =
        check_compatibility (Recette.mk nm r.aPourIngredient fs) p) := by
  refine ⟨?_, ?_, ?_, rfl, ?_, fun nm fs p => rfl⟩
  · rw [check_compatibility_vegetarien]
    simp [List.any_eq_true, List.any_eq_false, Bool.not_eq_true', beq_iff_eq,
      beq_eq_false_iff_ne, Bool.or_eq_false_iff]
  · rw [check_compatibility_vegane]
    simp [List.any_eq_true, List.any_eq_false, Bool.not_eq_true']
  · rw [check_compatibility_sansgluten]
    simp [List.any_eq_true, List.any_eq_false, Bool.not_eq_true', beq_eq_false_iff_ne]
  · rw [check_compatibility_allergielactose]
    simp [List.any_eq_true, List.any_eq_false, Bool.not_eq_true', beq_eq_false_iff_ne]

/-- C6 counterexample: the claim "compatible iff no Oleagineux ingredient's
name contains the substring "peanut" (case-insensitively)" is false on the
recipe whose single ingredient is the Oleagineux named "Arachide": its name
contains no "peanut", yet `check_compatibility` reports incompatible, since
the source matches the substring "arachide". -/
theorem c6_counterexample :
    ¬ (check_compatibility
        (Recette.mk "SnackCacahuete" [⟨"Arachide", .oleagineux⟩] []) "AllergieArachide" = true ↔
      specAllergyPeanut
        (Recette.mk "SnackCacahuete" [⟨"Arachide", .oleagineux⟩] []) = true) := by
  decide

/-- C6 amended: the `AllergieArachide` profile is compatible iff no
Oleagineux-category ingredient has a name containing the substring
"arachide", compared case-insensitively. -/
theorem c6_amended_arachide_substring (r : Recette) :
    check_compatibility r "AllergieArachide" = true ↔
      ∀ ing ∈ r.aPourIngredient, ing.categorie = Categorie.oleagineux →
        strContains (strLower ing.name) "arachide" = false := by
  rw [check_compatibility_allergiearachide]
  simp [List.any_eq_true, List.any_eq_false, Bool.not_eq_true', beq_iff_eq,
    Bool.and_eq_false_iff]

/-- C7: any profile name outside the six names recognized by
`check_compatibility` falls through every branch to the permissive default
`true`, for every recipe. -/
theorem c7_unknown_profile_compatible (r : Recette) (p : String)
    (h : p ∉ ["Vegetarien", "Vegane", "SansGluten", "AllergieGluten",
      "AllergieLactose", "AllergieArachide"]) :
    check_compatibility r p = true := by
  simp only [List.mem_cons, List.not_mem_nil, or_false, not_or] at h
  obtain ⟨h1, h2, h3, h4, h5, h6⟩ := h
  simp [check_compatibility, beq_iff_eq, h1, h2, h3, h4, h5, h6]

/-- C7 witness: the unknown profile "Keto" is accepted for the concrete
recipe `PouletRoti`, whose ingredients contain meat, dairy and gluten. -/
theorem c7_unknown_profile_compatible_witness :
    "Keto" ∉ ["Vegetarien", "Vegane", "SansGluten", "AllergieGluten",
      "AllergieLactose", "AllergieArachide"] ∧
    check_compatibility
      (Recette.mk "PouletRoti"
        [⟨"Poulet", .viande⟩, ⟨"Lait", .produitLaitier⟩, ⟨"Pain", .cerealeAvecGluten⟩] [])
      "Keto" = true :=
  ⟨by decide, c7_unknown_profile_compatible _ "Keto" (by decide)⟩
